import Mathlib

/-!
Verification of the sample-domain analysis pipeline
(`server/app/examples/sample_domain` and its boundary adapter
`server/app/api/v1/endpoints/sample.py`).

Numbers are modelled as `ℚ`: every numeric literal in the source is an
exact decimal, and all arithmetic performed on them (products, squares,
comparisons) is exact.  Optional Python values become `Option ℚ`;
Python's truthiness test on an optional float (`if x:`) is `truthy`
below, which is false both for `None` and for `0.0`.

The exception taxonomy (`shared/exceptions.py`) is represented by
`ErrKind`/`AppError`: every exception carries a message and a structured
detail map.  A raised exception is an `Except.error`; a `try/except`
block becomes an explicit handler function applied to the body's
outcome.
-/

deriving instance DecidableEq for Except

set_option allowUnsafeReducibility true

attribute [local semireducible] Rat.mul Rat.inv Rat.add Rat.sub Rat.div Rat.ofScientific

/-- Error kinds of the shared exception taxonomy. -/
inductive ErrKind where
  | notFound
  | validation
  | provider
  | calculator
  | application
deriving DecidableEq, Repr

/-- Values stored in an exception's detail map. -/
inductive DetailVal where
  | str (s : String)
  | int (n : Int)
  | rat (q : ℚ)
deriving DecidableEq, Repr

/-- An exception of the taxonomy: kind, human-readable message, detail map. -/
structure AppError where
  kind : ErrKind
  message : String
  details : List (String × DetailVal)
deriving DecidableEq, Repr

/-- Python truthiness of an optional float: `None` and `0.0` are falsy. -/
def truthy : Option ℚ → Bool
  | none => false
  | some x => decide (x ≠ 0)

/-- Python `x or d` on an optional float: yields `d` when `x` is falsy. -/
def pyOr (x : Option ℚ) (d : ℚ) : ℚ :=
  if truthy x then x.getD d else d

/-- `SampleCalculatorInput` (fields as used by the calculator):
subject value, optional score, analysis kind string, optional threshold. -/
structure SampleCalculatorInput where
  value : ℚ
  score : Option ℚ
  analysis_type : String
  threshold : Option ℚ
deriving DecidableEq, Repr

/-- How the default branch renders the score inside its second insight:
`score or 'N/A'` shows the number only when the score is truthy. -/
inductive ScoreDisplay where
  | na
  | val (q : ℚ)
deriving DecidableEq, Repr

/-- The insight strings produced by the calculator, one constructor per
distinct message template, carrying the interpolated values. -/
inductive Insight where
  | normalDistribution
  | meanValue (mean : ℚ)
  | scoreExceedsThreshold (score threshold : ℚ)
  | risingTrend
  | mediumTrendStrength
  | anomalyDetected
  | reviewNeeded
  | normalRange
  | valueIs (v : ℚ)
  | scoreIs (d : ScoreDisplay)
deriving DecidableEq, Repr

/-- `SampleCalculatorOutput`: metric-name → value pairs plus insights. -/
structure SampleCalculatorOutput where
  metrics : List (String × ℚ)
  insights : List Insight
deriving DecidableEq, Repr

/-- `SampleAnalysisCalculator.validate_input`: value must be
non-negative; a present score must lie in `[0, 1]`.  Violations raise
`CalculatorException` (no detail map). -/
def validateInputCalc (i : SampleCalculatorInput) : Except AppError Unit :=
  if i.value < 0 then
    .error ⟨.calculator, "Value must be non-negative", []⟩
  else
    match i.score with
    | some s =>
        if ¬(0 ≤ s ∧ s ≤ 1) then
          .error ⟨.calculator, "Score must be between 0 and 1", []⟩
        else .ok ()
    | none => .ok ()

/-- `SampleAnalysisCalculator._statistical_analysis`: dummy
central-tendency metrics; the threshold insight is appended only when
`input_data.threshold and input_data.score` is truthy and
`score > threshold`. -/
def statisticalAnalysis (i : SampleCalculatorInput) :
    List (String × ℚ) × List Insight :=
  let metrics : List (String × ℚ) :=
    [("mean", i.value),
     ("median", i.value * (95 / 100)),
     ("std_dev", i.value * (1 / 10)),
     ("variance", (i.value * (1 / 10)) ^ 2)]
  let insights : List Insight := [.normalDistribution, .meanValue i.value]
  let insights :=
    if truthy i.threshold && truthy i.score then
      if i.score.getD 0 > i.threshold.getD 0 then
        insights ++ [.scoreExceedsThreshold (i.score.getD 0) (i.threshold.getD 0)]
      else insights
    else insights
  (metrics, insights)

/-- `SampleAnalysisCalculator._trend_analysis`: constant stub. -/
def trendAnalysis (_i : SampleCalculatorInput) :
    List (String × ℚ) × List Insight :=
  ([("trend_direction", 1),
    ("trend_strength", 7 / 10),
    ("change_rate", 5 / 100)],
   [.risingTrend, .mediumTrendStrength])

/-- `SampleAnalysisCalculator._anomaly_detection`: flags anomalous when
`input_data.score and input_data.score < 0.3` is true (truthiness, so a
score of `0.0` is not flagged). -/
def anomalyDetection (i : SampleCalculatorInput) :
    List (String × ℚ) × List Insight :=
  let isAnomaly := truthy i.score && decide (i.score.getD 0 < 3 / 10)
  let metrics : List (String × ℚ) :=
    [("anomaly_score", if isAnomaly then 2 / 10 else 8 / 10),
     ("is_anomaly", if isAnomaly then 1 else 0),
     ("confidence", 85 / 100)]
  let insights : List Insight :=
    if isAnomaly then [.anomalyDetected, .reviewNeeded] else [.normalRange]
  (metrics, insights)

/-- `SampleAnalysisCalculator._default_analysis`: echoes value and
`score or 0.0` as metrics; the second insight shows `score or 'N/A'`. -/
def defaultAnalysis (i : SampleCalculatorInput) :
    List (String × ℚ) × List Insight :=
  ([("value", i.value), ("score", pyOr i.score 0)],
   [.valueIs i.value,
    .scoreIs (if truthy i.score then .val (i.score.getD 0) else .na)])

/-- The `if`/`elif` dispatch of `calculate` on the analysis-kind string;
unrecognized kinds fall through to the default branch. -/
def dispatchAnalysis (i : SampleCalculatorInput) :
    List (String × ℚ) × List Insight :=
  if i.analysis_type = "statistical" then statisticalAnalysis i
  else if i.analysis_type = "trend" then trendAnalysis i
  else if i.analysis_type = "anomaly" then anomalyDetection i
  else defaultAnalysis i

/-- Body of `SampleAnalysisCalculator.calculate`'s `try` block:
validate (a raised exception aborts the body), dispatch, assemble the
output. -/
def calculateBody (i : SampleCalculatorInput) :
    Except AppError SampleCalculatorOutput :=
  match validateInputCalc i with
  | .error e => .error e
  | .ok _ => .ok ⟨(dispatchAnalysis i).1, (dispatchAnalysis i).2⟩

/-- The `except Exception` clause of `calculate`: every exception raised
inside the body is re-raised as `CalculatorException` with the message
prefixed and the attempted analysis kind in the detail map. -/
def handleCalculateErrors (analysisType : String)
    (r : Except AppError SampleCalculatorOutput) :
    Except AppError SampleCalculatorOutput :=
  match r with
  | .ok a => .ok a
  | .error e =>
      .error ⟨.calculator, "Analysis calculation failed: " ++ e.message,
              [("analysis_type", .str analysisType)]⟩

/-- `SampleAnalysisCalculator.calculate`. -/
def calculate (i : SampleCalculatorInput) :
    Except AppError SampleCalculatorOutput :=
  handleCalculateErrors i.analysis_type (calculateBody i)

/-! ## Provider (`sample_domain/providers/__init__.py`) -/

/-- `SampleProviderInput`: carries the identifier to resolve. -/
structure SampleProviderInput where
  data_id : Int
deriving DecidableEq, Repr

/-- `SampleProviderOutput`: resolved record. -/
structure SampleProviderOutput where
  id : Int
  name : String
  value : ℚ
  score : ℚ
deriving DecidableEq, Repr

/-- `SampleDataProvider.validate_input`: the body is `pass` — it accepts
every input (the positivity check is an unimplemented TODO, although the
docstring documents a `ValidationException` on invalid input). -/
def validateInputProvider (_i : SampleProviderInput) : Except AppError Unit :=
  .ok ()

/-- Body of `SampleDataProvider.provide`'s `try` block: validate (a
raised exception aborts the body), then return the dummy record echoing
the requested identifier. -/
def provideBody (i : SampleProviderInput) :
    Except AppError SampleProviderOutput :=
  match validateInputProvider i with
  | .error e => .error e
  | .ok _ =>
      .ok ⟨i.data_id, "Sample Data " ++ toString i.data_id, 85 / 2, 85 / 100⟩

/-- The `except` clauses of `provide`: a `NotFoundException` is re-raised
unchanged; every other exception is wrapped into a `ProviderException`
whose message embeds the original message and whose detail map carries
the `data_id` being looked up. -/
def handleProvideErrors (dataId : Int)
    (r : Except AppError SampleProviderOutput) :
    Except AppError SampleProviderOutput :=
  match r with
  | .ok a => .ok a
  | .error e =>
      if e.kind = .notFound then .error e
      else
        .error ⟨.provider, "Failed to provide data: " ++ e.message,
                [("data_id", .int dataId)]⟩

/-- `SampleDataProvider.provide`. -/
def provide (i : SampleProviderInput) : Except AppError SampleProviderOutput :=
  handleProvideErrors i.data_id (provideBody i)

/-- The list-comprehension semantics of `SampleDataProvider.get_multiple`:
call `p` on each identifier in order; the first raised exception aborts
the whole batch. -/
def provideEach (p : Int → Except AppError SampleProviderOutput) :
    List Int → Except AppError (List SampleProviderOutput)
  | [] => .ok []
  | d :: rest =>
      match p d with
      | .error e => .error e
      | .ok o =>
          match provideEach p rest with
          | .error e => .error e
          | .ok os => .ok (o :: os)

/-- `SampleDataProvider.get_multiple`. -/
def get_multiple (dataIds : List Int) :
    Except AppError (List SampleProviderOutput) :=
  provideEach (fun d => provide ⟨d⟩) dataIds

/-! ## Service and boundary adapter

`service.py`, `schemas.py` and `shared/base.py` are not among the
sampled sources; the Service and the request/response shapes are
modelled from the spec.  The boundary adapter itself
(`analyze_data` in `api/v1/endpoints/sample.py`) is translated from the
source. -/

/-- Modelled from the spec: `SampleAnalysisRequest` (schemas.py is not
among the sampled sources) — identifier, analysis kind, optional
threshold and the detail-verbosity flag. -/
structure SampleAnalysisRequest where
  data_id : Int
  analysis_type : String
  threshold : Option ℚ
  include_details : Bool
deriving DecidableEq, Repr

/-- Modelled from the spec: the Response payload — metrics and insights
from the Calculator plus request-echoed identifying fields. -/
structure SampleAnalysisResponse where
  data_id : Int
  analysis_type : String
  metrics : List (String × ℚ)
  insights : List Insight
deriving DecidableEq, Repr

/-- Modelled from the spec: the Result envelope (`shared/base.py` is not
among the sampled sources) — `Success` carries the payload, `Failure`
carries the converted error's message/details (and here the whole
error, so the boundary could in principle inspect its kind). -/
inductive SResult (α : Type) where
  | success (data : α)
  | failure (error : AppError)
deriving DecidableEq, Repr

/-- Modelled from the spec: `SampleDomainService.execute` (service.py is
not among the sampled sources).  Per §4.5 the Service resolves the
record through the Provider — an identifier that resolves to nothing
fails with `NotFoundError` — short-circuits any provider error into
`Result.Failure`, then runs the Calculator and wraps its error likewise;
on success it assembles the Response.  `resolve` abstracts the external
data source consulted by the Provider. -/
def executeModel (resolve : Int → Option SampleProviderOutput)
    (req : SampleAnalysisRequest) : SResult SampleAnalysisResponse :=
  match resolve req.data_id with
  | none =>
      .failure ⟨.notFound,
                "Data with id " ++ toString req.data_id ++ " not found",
                [("data_id", .int req.data_id)]⟩
  | some d =>
      match calculate ⟨d.value, some d.score, req.analysis_type, req.threshold⟩ with
      | .error e => .failure e
      | .ok out => .success ⟨req.data_id, req.analysis_type, out.metrics, out.insights⟩

/-- Bodies a transport response can carry: the 200-path payload, the
`HTTPException` detail field, or the shape the application-level
exception handler would emit. -/
inductive HttpBody (α : Type) where
  | payload (d : α)
  | detail (msg : String)
  | errorAndDetails (msg : String) (details : List (String × DetailVal))
deriving DecidableEq, Repr

/-- A transport response: status code and body. -/
structure HttpResponse (α : Type) where
  status : Nat
  body : HttpBody α
deriving DecidableEq, Repr

/-- Result handling of `analyze_data` (sample.py lines 90–97): on
success return the payload with status 200; otherwise raise
`HTTPException(status_code=400, detail=result.error)` — the status is
the constant `HTTP_400_BAD_REQUEST` whatever the error kind, and only
the error message is serialized. -/
def analyzeRespond {α : Type} (r : SResult α) : HttpResponse α :=
  match r with
  | .success d => ⟨200, .payload d⟩
  | .failure e => ⟨400, .detail e.message⟩

/-! ## Helper lemmas -/

theorem pyOr_zero_eq_getD (x : Option ℚ) : pyOr x 0 = x.getD 0 := by
  cases x with
  | none => rfl
  | some s =>
      by_cases h : s = 0
      · simp [pyOr, truthy, h]
      · simp [pyOr, truthy, h]

theorem validateInputCalc_ok (i : SampleCalculatorInput) (hv : 0 ≤ i.value)
    (hs : ∀ s, i.score = some s → 0 ≤ s ∧ s ≤ 1) :
    validateInputCalc i = .ok () := by
  unfold validateInputCalc
  rw [if_neg (not_lt.2 hv)]
  cases hsc : i.score with
  | none => rfl
  | some s =>
      have h := hs s hsc
      simp [h.1, h.2]

theorem calculate_of_valid (i : SampleCalculatorInput) (hv : 0 ≤ i.value)
    (hs : ∀ s, i.score = some s → 0 ≤ s ∧ s ≤ 1) :
    calculate i = .ok ⟨(dispatchAnalysis i).1, (dispatchAnalysis i).2⟩ := by
  unfold calculate calculateBody handleCalculateErrors
  rw [validateInputCalc_ok i hv hs]

theorem calculate_of_invalid (i : SampleCalculatorInput) (e : AppError)
    (h : validateInputCalc i = .error e) :
    calculate i =
      .error ⟨.calculator, "Analysis calculation failed: " ++ e.message,
              [("analysis_type", .str i.analysis_type)]⟩ := by
  unfold calculate calculateBody handleCalculateErrors
  rw [h]

/-! ## Claim theorems -/

/-- C3: a NotFoundError raised inside `provide` passes through the
provider's `except` clauses unchanged, while every other exception is
wrapped into a ProviderError whose message embeds the original message
and whose detail map carries the `data_id` that was being looked up. -/
theorem c3_provider_error_wrapping :
    (∀ (dataId : Int) (e : AppError), e.kind = .notFound →
        handleProvideErrors dataId (.error e) = .error e) ∧
    (∀ (dataId : Int) (e : AppError), e.kind ≠ .notFound →
        handleProvideErrors dataId (.error e) =
          .error ⟨.provider, "Failed to provide data: " ++ e.message,
                  [("data_id", .int dataId)]⟩) := by
  constructor
  · intro dataId e h
    simp [handleProvideErrors, h]
  · intro dataId e h
    simp [handleProvideErrors, h]

/-- Witness for C3 at a concrete NotFound error and a concrete
non-NotFound error. -/
theorem c3_provider_error_wrapping_witness :
    handleProvideErrors 7 (.error ⟨.notFound, "missing", []⟩) =
      .error ⟨.notFound, "missing", []⟩ ∧
    handleProvideErrors 7 (.error ⟨.validation, "boom", []⟩) =
      .error ⟨.provider, "Failed to provide data: boom",
              [("data_id", .int 7)]⟩ :=
  ⟨c3_provider_error_wrapping.1 7 ⟨.notFound, "missing", []⟩ rfl,
   c3_provider_error_wrapping.2 7 ⟨.validation, "boom", []⟩ (by decide)⟩

/-- C4: every exception raised inside `calculate`'s body — validation
failures included, whatever their kind — is re-raised as a
CalculatorError carrying the attempted analysis kind in its detail map,
so every failure the caller receives from `calculate` is a
CalculatorError with that detail. -/
theorem c4_calculator_error_wrapping :
    (∀ (ty : String) (e : AppError),
        handleCalculateErrors ty (.error e) =
          .error ⟨.calculator, "Analysis calculation failed: " ++ e.message,
                  [("analysis_type", .str ty)]⟩) ∧
    (∀ (i : SampleCalculatorInput) (e : AppError), calculate i = .error e →
        e.kind = .calculator ∧
        ("analysis_type", DetailVal.str i.analysis_type) ∈ e.details) := by
  constructor
  · intro ty e
    rfl
  · intro i e h
    unfold calculate handleCalculateErrors at h
    cases hb : calculateBody i with
    | ok a =>
        rw [hb] at h
        simp at h
    | error e0 =>
        rw [hb] at h
        injection h with h'
        subst h'
        exact ⟨rfl, by simp⟩

/-- Witness for C4: the error produced by a negative subject value is a
CalculatorError carrying the attempted analysis kind. -/
theorem c4_calculator_error_wrapping_witness :
    (AppError.mk .calculator
        "Analysis calculation failed: Value must be non-negative"
        [("analysis_type", .str "statistical")]).kind = .calculator ∧
    ("analysis_type", DetailVal.str "statistical") ∈
      (AppError.mk .calculator
        "Analysis calculation failed: Value must be non-negative"
        [("analysis_type", .str "statistical")]).details :=
  c4_calculator_error_wrapping.2 ⟨-1, none, "statistical", none⟩ _ (by decide)

/-- C6: an input with a negative subject value, or with a present score
outside [0, 1], makes `calculate` fail (the validation error is
re-wrapped, so it surfaces as a CalculatorError) and no output — hence
no metrics map — is produced. -/
theorem c6_validation_rejects (i : SampleCalculatorInput)
    (hbad : i.value < 0 ∨ ∃ s, i.score = some s ∧ (s < 0 ∨ 1 < s)) :
    ∃ e, calculate i = .error e ∧ e.kind = .calculator := by
  obtain ⟨e0, he0⟩ : ∃ e0, validateInputCalc i = .error e0 := by
    by_cases hv : i.value < 0
    · exact ⟨_, by unfold validateInputCalc; rw [if_pos hv]⟩
    · rcases hbad with h | ⟨s, hsc, hout⟩
      · exact absurd h hv
      · have hns : ¬(0 ≤ s ∧ s ≤ 1) := by
          rcases hout with h1 | h1
          · exact fun hc => absurd h1 (not_lt.2 hc.1)
          · exact fun hc => absurd h1 (not_lt.2 hc.2)
        exact ⟨⟨.calculator, "Score must be between 0 and 1", []⟩, by
          unfold validateInputCalc
          rw [if_neg hv, hsc]
          simp [hns]⟩
  exact ⟨_, calculate_of_invalid i e0 he0, rfl⟩

/-- Witness for C6 at the concrete input with subject value −1. -/
theorem c6_validation_rejects_witness :
    ∃ e, calculate ⟨-1, none, "statistical", none⟩ = .error e ∧
      e.kind = .calculator :=
  c6_validation_rejects ⟨-1, none, "statistical", none⟩ (Or.inl (by decide))

/-- C7: every successful `calculate` — over every analysis kind,
the default fallback included — returns a non-empty metrics map. -/
theorem c7_success_metrics_nonempty (i : SampleCalculatorInput)
    (out : SampleCalculatorOutput) (h : calculate i = .ok out) :
    out.metrics ≠ [] := by
  have hd : (dispatchAnalysis i).1 ≠ [] := by
    unfold dispatchAnalysis
    split
    · simp [statisticalAnalysis]
    · split
      · simp [trendAnalysis]
      · split
        · simp [anomalyDetection]
        · simp [defaultAnalysis]
  unfold calculate handleCalculateErrors at h
  cases hb : calculateBody i with
  | error e =>
      rw [hb] at h
      simp at h
  | ok a =>
      rw [hb] at h
      injection h with h'
      subst h'
      unfold calculateBody at hb
      cases hvv : validateInputCalc i with
      | error e =>
          rw [hvv] at hb
          simp at hb
      | ok u =>
          rw [hvv] at hb
          injection hb with hb'
          rw [← hb']
          exact hd

/-- Witness for C7 at the concrete trend input. -/
theorem c7_success_metrics_nonempty_witness :
    (SampleCalculatorOutput.mk
        [("trend_direction", 1), ("trend_strength", 7 / 10), ("change_rate", 5 / 100)]
        [.risingTrend, .mediumTrendStrength]).metrics ≠ [] :=
  c7_success_metrics_nonempty ⟨1, none, "trend", none⟩ _ (by decide)

/-- C8 (code bug): the provider's `validate_input` body is `pass`, so —
contrary to its own docstring and to the claim — a non-positive
identifier is accepted and `provide` returns the dummy output instead
of failing with a ValidationError. -/
theorem c8_provide_accepts_nonpositive :
    validateInputProvider ⟨-1⟩ = .ok () ∧
    provide ⟨-1⟩ = .ok ⟨-1, "Sample Data -1", 85 / 2, 85 / 100⟩ := by decide

/-- C2 counterexample: a score of 0.0 is present and below the 0.3
cutoff, yet the anomaly branch does not flag it — Python's truthiness
test `if input_data.score` treats 0.0 like an absent score. -/
theorem c2_zero_score_not_flagged :
    (0 : ℚ) < 3 / 10 ∧
    calculate ⟨1, some 0, "anomaly", none⟩ =
      .ok ⟨[("anomaly_score", 8 / 10), ("is_anomaly", 0), ("confidence", 85 / 100)],
           [.normalRange]⟩ := by decide

/-- C2 (amended): the anomaly branch flags anomalous exactly when the
score is present, nonzero and below 0.3; a flagged input yields
anomaly_score 0.2, is_anomaly 1.0, confidence 0.85 and the
anomaly-flag insights, an unflagged one yields 0.8, 0.0 and the
normal-range insight; score 0.25 is flagged and score 0.5 is not. -/
theorem c2_anomaly_branch (i : SampleCalculatorInput)
    (hty : i.analysis_type = "anomaly")
    (hv : 0 ≤ i.value) (hs : ∀ s, i.score = some s → 0 ≤ s ∧ s ≤ 1) :
    (∀ s, i.score = some s → s ≠ 0 → s < 3 / 10 →
        calculate i =
          .ok ⟨[("anomaly_score", 2 / 10), ("is_anomaly", 1), ("confidence", 85 / 100)],
               [.anomalyDetected, .reviewNeeded]⟩) ∧
    ((∀ s, i.score = some s → s = 0 ∨ 3 / 10 ≤ s) →
        calculate i =
          .ok ⟨[("anomaly_score", 8 / 10), ("is_anomaly", 0), ("confidence", 85 / 100)],
               [.normalRange]⟩) ∧
    calculate ⟨1, some (1 / 4), "anomaly", none⟩ =
      .ok ⟨[("anomaly_score", 2 / 10), ("is_anomaly", 1), ("confidence", 85 / 100)],
           [.anomalyDetected, .reviewNeeded]⟩ ∧
    calculate ⟨1, some (1 / 2), "anomaly", none⟩ =
      .ok ⟨[("anomaly_score", 8 / 10), ("is_anomaly", 0), ("confidence", 85 / 100)],
           [.normalRange]⟩ := by
  have hd : dispatchAnalysis i = anomalyDetection i := by
    unfold dispatchAnalysis
    rw [hty]
    rw [if_neg (by decide : ¬("anomaly" : String) = "statistical"),
        if_neg (by decide : ¬("anomaly" : String) = "trend"),
        if_pos rfl]
  have hc := calculate_of_valid i hv hs
  rw [hd] at hc
  refine ⟨?_, ?_, by decide, by decide⟩
  · intro s hsc hne hlt
    rw [hc]
    unfold anomalyDetection
    rw [hsc]
    simp [truthy, hne, hlt]
  · intro hall
    rw [hc]
    unfold anomalyDetection
    cases hsc : i.score with
    | none => simp [truthy]
    | some s =>
        rcases hall s hsc with h0 | hge
        · subst h0
          simp [truthy]
        · have hnlt : ¬ s < 3 / 10 := not_lt.2 hge
          simp [truthy, hnlt]

/-- Witness for C2 (amended), applying the theorem at the concrete
anomaly input with score 0.25. -/
theorem c2_anomaly_branch_witness :
    calculate ⟨1, some (1 / 4), "anomaly", none⟩ =
      .ok ⟨[("anomaly_score", 2 / 10), ("is_anomaly", 1), ("confidence", 85 / 100)],
           [.anomalyDetected, .reviewNeeded]⟩ :=
  (c2_anomaly_branch ⟨1, some (1 / 4), "anomaly", none⟩ rfl (by decide)
      (fun s h => by injection h with h'; subst h'; constructor <;> decide)).1
    (1 / 4) rfl (by decide) (by decide)

/-- C5 counterexample: with value 10, score 0.9 and threshold 0.0 both
threshold and score are present and the score exceeds the threshold,
yet no third insight is appended — Python's truthiness test
`if input_data.threshold` treats 0.0 like an absent threshold. -/
theorem c5_zero_threshold_no_insight :
    (0 : ℚ) < 9 / 10 ∧
    calculate ⟨10, some (9 / 10), "statistical", some 0⟩ =
      .ok ⟨[("mean", 10), ("median", 19 / 2), ("std_dev", 1), ("variance", 1)],
           [.normalDistribution, .meanValue 10]⟩ := by decide

/-- C5 (amended): the statistical branch appends the
threshold-comparison insight exactly when threshold and score are both
present and nonzero and score > threshold; for value 10, score 0.9,
threshold 0.5 the insights list has length 3 and the third insight
carries both the score and the threshold, and with no threshold/score
the insights list has length 2. -/
theorem c5_statistical_branch (i : SampleCalculatorInput)
    (hty : i.analysis_type = "statistical")
    (hv : 0 ≤ i.value) (hs : ∀ s, i.score = some s → 0 ≤ s ∧ s ≤ 1) :
    (∀ s t, i.score = some s → i.threshold = some t → s ≠ 0 → t ≠ 0 → t < s →
        calculate i =
          .ok ⟨[("mean", i.value), ("median", i.value * (95 / 100)),
                ("std_dev", i.value * (1 / 10)), ("variance", (i.value * (1 / 10)) ^ 2)],
               [.normalDistribution, .meanValue i.value, .scoreExceedsThreshold s t]⟩) ∧
    ((i.threshold = none ∨ i.score = none ∨
        ∃ s t, i.score = some s ∧ i.threshold = some t ∧ (s = 0 ∨ t = 0 ∨ s ≤ t)) →
        calculate i =
          .ok ⟨[("mean", i.value), ("median", i.value * (95 / 100)),
                ("std_dev", i.value * (1 / 10)), ("variance", (i.value * (1 / 10)) ^ 2)],
               [.normalDistribution, .meanValue i.value]⟩) ∧
    calculate ⟨10, some (9 / 10), "statistical", some (5 / 10)⟩ =
      .ok ⟨[("mean", 10), ("median", 19 / 2), ("std_dev", 1), ("variance", 1)],
           [.normalDistribution, .meanValue 10, .scoreExceedsThreshold (9 / 10) (5 / 10)]⟩ ∧
    calculate ⟨10, none, "statistical", none⟩ =
      .ok ⟨[("mean", 10), ("median", 19 / 2), ("std_dev", 1), ("variance", 1)],
           [.normalDistribution, .meanValue 10]⟩ := by
  have hd : dispatchAnalysis i = statisticalAnalysis i := by
    unfold dispatchAnalysis
    rw [hty, if_pos rfl]
  have hc := calculate_of_valid i hv hs
  rw [hd] at hc
  refine ⟨?_, ?_, by decide, by decide⟩
  · intro s t hsc htc hsne htne hlt
    rw [hc]
    unfold statisticalAnalysis
    rw [hsc, htc]
    simp [truthy, hsne, htne, hlt]
  · intro hcond
    rw [hc]
    unfold statisticalAnalysis
    rcases hcond with hn | hn | ⟨s, t, hsc, htc, h3⟩
    · rw [hn]
      simp [truthy]
    · rw [hn]
      simp [truthy]
    · rw [hsc, htc]
      rcases h3 with h | h | h
      · subst h
        simp [truthy]
      · subst h
        simp [truthy]
      · have hnlt : ¬ t < s := not_lt.2 h
        simp [truthy, hnlt]

/-- Witness for C5 (amended), applying the theorem at the concrete
statistical input with score 0.9 and threshold 0.5. -/
theorem c5_statistical_branch_witness :
    calculate ⟨10, some (9 / 10), "statistical", some (5 / 10)⟩ =
      .ok ⟨[("mean", 10), ("median", 19 / 2), ("std_dev", 1), ("variance", 1)],
           [.normalDistribution, .meanValue 10, .scoreExceedsThreshold (9 / 10) (5 / 10)]⟩ :=
  (c5_statistical_branch ⟨10, some (9 / 10), "statistical", some (5 / 10)⟩ rfl
      (by decide)
      (fun s h => by injection h with h'; subst h'; constructor <;> decide)).1
    (9 / 10) (5 / 10) rfl rfl (by decide) (by decide) (by decide)

/-- C10: in the default branch the metrics map is exactly value and
score, with a missing score — and likewise a score of 0.0 — echoed as
the metric value 0.0 (`score or 0.0`, which coincides with
`Option.getD 0`), and the second insight renders a missing score as
N/A. -/
theorem c10_default_branch (i : SampleCalculatorInput)
    (hty : ¬(i.analysis_type = "statistical" ∨ i.analysis_type = "trend" ∨
             i.analysis_type = "anomaly"))
    (hv : 0 ≤ i.value) (hs : ∀ s, i.score = some s → 0 ≤ s ∧ s ≤ 1) :
    ∃ out, calculate i = .ok out ∧
      out.metrics = [("value", i.value), ("score", i.score.getD 0)] ∧
      (i.score = none → out.metrics = [("value", i.value), ("score", 0)]) ∧
      (i.score = some 0 → out.metrics = [("value", i.value), ("score", 0)]) ∧
      out.insights.length = 2 ∧
      (i.score = none → out.insights = [.valueIs i.value, .scoreIs .na]) := by
  have h1 : ¬ i.analysis_type = "statistical" := fun h => hty (Or.inl h)
  have h2 : ¬ i.analysis_type = "trend" := fun h => hty (Or.inr (Or.inl h))
  have h3 : ¬ i.analysis_type = "anomaly" := fun h => hty (Or.inr (Or.inr h))
  have hd : dispatchAnalysis i = defaultAnalysis i := by
    unfold dispatchAnalysis
    rw [if_neg h1, if_neg h2, if_neg h3]
  have hc := calculate_of_valid i hv hs
  rw [hd] at hc
  refine ⟨_, hc, ?_, ?_, ?_, ?_, ?_⟩
  · simp [defaultAnalysis, pyOr_zero_eq_getD]
  · intro hn
    simp [defaultAnalysis, pyOr_zero_eq_getD, hn]
  · intro hz
    simp [defaultAnalysis, pyOr_zero_eq_getD, hz]
  · simp [defaultAnalysis]
  · intro hn
    simp [defaultAnalysis, hn, truthy]

/-- Witness for C10 at a concrete input with an unrecognized analysis
kind and no score. -/
theorem c10_default_branch_witness :
    ∃ out, calculate ⟨3, none, "other", none⟩ = .ok out ∧
      out.metrics = [("value", 3), ("score", (none : Option ℚ).getD 0)] ∧
      ((none : Option ℚ) = none → out.metrics = [("value", 3), ("score", 0)]) ∧
      ((none : Option ℚ) = some 0 → out.metrics = [("value", 3), ("score", 0)]) ∧
      out.insights.length = 2 ∧
      ((none : Option ℚ) = none → out.insights = [.valueIs 3, .scoreIs .na]) :=
  c10_default_branch ⟨3, none, "other", none⟩ (by decide) (by decide)
    (fun s h => by cases h)

/-- C9: the batch operation preserves input-id ordering — on success
the i-th output carries the i-th input identifier — and the
comprehension's semantics is fail-fast: if every identifier before `d`
succeeds and `d` fails, the whole batch fails with that error and no
partial result list is returned. -/
theorem c9_batch_order_and_failfast :
    (∀ (ids : List Int) (outs : List SampleProviderOutput),
        get_multiple ids = .ok outs → outs.map (fun o => o.id) = ids) ∧
    (∀ (p : Int → Except AppError SampleProviderOutput)
        (ids1 : List Int) (d : Int) (ids2 : List Int) (e : AppError),
        p d = .error e → (∀ x ∈ ids1, ∃ o, p x = .ok o) →
        provideEach p (ids1 ++ d :: ids2) = .error e) := by
  constructor
  · intro ids
    induction ids with
    | nil =>
        intro outs h
        injection h with h'
        subst h'
        rfl
    | cons d rest ih =>
        intro outs h
        unfold get_multiple provideEach at h
        have hp : provide ⟨d⟩ =
            .ok ⟨d, "Sample Data " ++ toString d, 85 / 2, 85 / 100⟩ := rfl
        simp only [hp] at h
        cases hr : provideEach (fun d => provide ⟨d⟩) rest with
        | error e =>
            rw [hr] at h
            simp at h
        | ok os =>
            rw [hr] at h
            injection h with h'
            subst h'
            have := ih os hr
            simp only [List.map_cons, this]
  · intro p ids1 d ids2 e hpd hall
    induction ids1 with
    | nil =>
        simp only [List.nil_append]
        unfold provideEach
        rw [hpd]
    | cons x xs ih =>
        obtain ⟨o, ho⟩ := hall x (List.mem_cons_self x xs)
        have ih' := ih (fun y hy => hall y (List.mem_cons_of_mem x hy))
        simp only [List.cons_append]
        unfold provideEach
        rw [ho, ih']

/-- Witness for C9: a two-element batch keeps its order, and a batch
whose middle identifier fails fails as a whole with that error. -/
theorem c9_batch_order_and_failfast_witness :
    ([(⟨5, "Sample Data 5", 85 / 2, 85 / 100⟩ : SampleProviderOutput),
      ⟨7, "Sample Data 7", 85 / 2, 85 / 100⟩].map (fun o => o.id) = [5, 7]) ∧
    provideEach
        (fun d => if d = 0 then .error ⟨.notFound, "missing", []⟩ else provide ⟨d⟩)
        ([1] ++ 0 :: [2]) = .error ⟨.notFound, "missing", []⟩ :=
  ⟨c9_batch_order_and_failfast.1 [5, 7] _ (by decide),
   c9_batch_order_and_failfast.2
     (fun d => if d = 0 then .error ⟨.notFound, "missing", []⟩ else provide ⟨d⟩)
     [1] 0 [2] ⟨.notFound, "missing", []⟩ (by decide)
     (by
       intro x hx
       simp at hx
       subst hx
       exact ⟨⟨1, "Sample Data 1", 85 / 2, 85 / 100⟩, by decide⟩)⟩

/-- C1 counterexample: a request whose identifier resolves to nothing
produces a NotFound Failure, yet the boundary adapter answers with
status 400 — not 404 — and serializes only the message as the
HTTPException detail, not the error-and-details body. -/
theorem c1_notfound_gets_400 :
    executeModel (fun _ => none) ⟨7, "statistical", none, false⟩ =
      .failure ⟨.notFound, "Data with id 7 not found", [("data_id", .int 7)]⟩ ∧
    (analyzeRespond (executeModel (fun _ => none) ⟨7, "statistical", none, false⟩)).status
      = 400 ∧
    ¬(analyzeRespond (executeModel (fun _ => none) ⟨7, "statistical", none, false⟩)).status
      = 404 ∧
    (analyzeRespond (executeModel (fun _ => none) ⟨7, "statistical", none, false⟩)).body
      = HttpBody.detail "Data with id 7 not found" := by decide

/-- C1 (amended): the boundary adapter maps every Failure — whatever
the error kind, NotFoundError included — to status 400 and serializes
the error message as the HTTPException detail; in particular a request
whose identifier resolves to nothing surfaces as a 400 response
carrying the not-found message. -/
theorem c1_boundary_uniform_400 :
    (∀ e : AppError,
        analyzeRespond (SResult.failure e : SResult SampleAnalysisResponse) =
          ⟨400, .detail e.message⟩) ∧
    (∀ (resolve : Int → Option SampleProviderOutput) (req : SampleAnalysisRequest),
        resolve req.data_id = none →
        analyzeRespond (executeModel resolve req) =
          ⟨400, .detail ("Data with id " ++ toString req.data_id ++ " not found")⟩) := by
  constructor
  · intro e
    rfl
  · intro resolve req h
    unfold executeModel
    rw [h]
    rfl

/-- Witness for C1 (amended) at the resolver that resolves nothing. -/
theorem c1_boundary_uniform_400_witness :
    analyzeRespond (executeModel (fun _ => none) ⟨7, "statistical", none, false⟩) =
      ⟨400, .detail ("Data with id " ++ toString (7 : Int) ++ " not found")⟩ :=
  c1_boundary_uniform_400.2 (fun _ => none) ⟨7, "statistical", none, false⟩ rfl
